import Mathlib

/-!
Verification of the run-reporting and property-composition core of a
property-based testing engine. Definitions are shallow embeddings of the
TypeScript source: the reporting pipeline (execution-tree rendering, run
outcome classification, failure surfacing, custom assertion wrappers) and
the asynchronous property constructor. External collaborators (the value
formatter stringify, the random source, the tuple arbitrary) are either
parameters or are modelled from the specification where noted.
-/

namespace FastCheck

/-- Modelled from the spec: the ExecutionStatus enumeration from the
reporter subsystem (not under src); a node is Success, Failure or
Skipped. -/
inductive ExecutionStatus where
  | success
  | failure
  | skipped
deriving DecidableEq, Repr

/-- Modelled from the spec: an ExecutionTree node from the reporter
subsystem (not under src): a value, a status and an ordered list of
children (the shrink attempts explored from this value). -/
inductive ExecutionTree (α : Type) where
  | node (value : α) (status : ExecutionStatus) (children : List (ExecutionTree α))
deriving Repr

/-- Value stored at the root of a tree. -/
def ExecutionTree.value {α : Type} : ExecutionTree α → α
  | .node v _ _ => v

/-- Status stored at the root of a tree. -/
def ExecutionTree.status {α : Type} : ExecutionTree α → ExecutionStatus
  | .node _ s _ => s

/-- Children of the root of a tree. -/
def ExecutionTree.children {α : Type} : ExecutionTree α → List (ExecutionTree α)
  | .node _ _ cs => cs

mutual

/-- Number of nodes of a tree, used as a termination measure. -/
def treeSize {α : Type} : ExecutionTree α → Nat
  | .node _ _ cs => 1 + forestSize cs

/-- Total number of nodes of a forest. -/
def forestSize {α : Type} : List (ExecutionTree α) → Nat
  | [] => 0
  | t :: ts => treeSize t + forestSize ts

end

/-- Status icon of a node, from the ternary chain in
formatExecutionSummary: a green check for Success, a red cross for
Failure, a yellow exclamation mark otherwise. -/
def statusIcon : ExecutionStatus → String
  | .success => "\x1b[32m√\x1b[0m"
  | .failure => "\x1b[31m\xD7\x1b[0m"
  | .skipped => "\x1b[33m!\x1b[0m"

/-- Left padding of a summary line: Array(depth).join applied to the two
character marker, which repeats the marker depth minus one times. -/
def leftPadding (depth : Nat) : String :=
  String.join (List.replicate (depth - 1) (". "))

/-- One line of the execution summary for a node printed at a given
depth, as built in the loop body of formatExecutionSummary. -/
def summaryLine {α : Type} (f : α → String) (depth : Nat) (t : ExecutionTree α) : String :=
  leftPadding depth ++ statusIcon t.status ++ " " ++ f t.value

/-- Total tree size carried by an explicit work stack of
depth-and-tree pairs; termination measure for the traversal loop. -/
def stackSize {α : Type} : List (Nat × ExecutionTree α) → Nat
  | [] => 0
  | (_, t) :: rest => treeSize t + stackSize rest

theorem stackSize_append {α : Type} (xs ys : List (Nat × ExecutionTree α)) :
    stackSize (xs ++ ys) = stackSize xs + stackSize ys := by
  induction xs with
  | nil => simp [stackSize]
  | cons p rest ih =>
    obtain ⟨d, t⟩ := p
    simp [stackSize, ih]
    omega

theorem stackSize_map_children {α : Type} (d : Nat) (cs : List (ExecutionTree α)) :
    stackSize (cs.map (fun c => (d, c))) = forestSize cs := by
  induction cs with
  | nil => simp [stackSize, forestSize]
  | cons c rest ih => simp [stackSize, forestSize, ih]

/-- Main loop of formatExecutionSummary: an explicit work stack of
depth-and-tree pairs, popping the head, emitting its line and pushing
its children so they pop in original order. In the source the stack is
a JS array whose top is its last slot and where roots and children are
pushed reversed; popping therefore visits entries in original order,
which this head-is-top list models directly. -/
def summaryLinesGo {α : Type} (f : α → String) :
    List (Nat × ExecutionTree α) → List String
  | [] => []
  | (d, t) :: rest =>
    summaryLine f d t ::
      summaryLinesGo f ((t.children.map (fun c => (d + 1, c))) ++ rest)
termination_by stack => stackSize stack
decreasing_by
  simp only [stackSize, stackSize_append, stackSize_map_children]
  cases t with
  | node v s cs => simp [ExecutionTree.children, treeSize]

/-- Renders an execution forest: the header line followed by one line
per node, obtained by running the work-stack loop on the roots at depth
one, joined by newlines. This is the text returned by a single call of
formatExecutionSummary on a forest in the given state. -/
def formatExecutionSummary {α : Type} (f : α → String) (ts : List (ExecutionTree α)) : String :=
  "Execution summary:\n" ++
    String.intercalate ("\n") (summaryLinesGo f (ts.map (fun t => (1, t))))

mutual

/-- In-place reversal side effect of formatExecutionSummary on one
tree: the source iterates currentTree.children.reverse(), and the JS
reverse method reverses the array in place, so after the call every
visited node holds its children reversed (each list is reversed exactly
once, when its node is popped). -/
def mirrorTree {α : Type} : ExecutionTree α → ExecutionTree α
  | .node v s cs => .node v s (mirrorForest cs)

/-- In-place reversal side effect of formatExecutionSummary on the root
array and, recursively, on every children list: the state of the forest
after one rendering call. -/
def mirrorForest {α : Type} : List (ExecutionTree α) → List (ExecutionTree α)
  | [] => []
  | t :: ts => mirrorForest ts ++ [mirrorTree t]

end

mutual

/-- Lines of one tree in pre-order at a given depth, stated the way the
spec describes the output: the node line first, then the lines of its
children at the next depth, siblings in original order. -/
def preorderLines {α : Type} (f : α → String) (d : Nat) : ExecutionTree α → List String
  | .node v s cs => summaryLine f d (.node v s cs) :: preorderLinesForest f (d + 1) cs

/-- Lines of a forest in pre-order at a given depth. -/
def preorderLinesForest {α : Type} (f : α → String) (d : Nat) :
    List (ExecutionTree α) → List String
  | [] => []
  | t :: ts => preorderLines f d t ++ preorderLinesForest f d ts

end

/-- Pre-order lines of every stack entry in turn, used to relate the
work-stack loop to the recursive pre-order. -/
def stackLines {α : Type} (f : α → String) : List (Nat × ExecutionTree α) → List String
  | [] => []
  | (d, t) :: rest => preorderLines f d t ++ stackLines f rest

/-- Numbered hint lines from the map over hints in formatHints: the JS
callback receives the zero-based index and prints it plus one. -/
def numberedHints : Nat → List String → List String
  | _, [] => []
  | i, h :: t => ("Hint (" ++ toString (i + 1) ++ "): " ++ h) :: numberedHints (i + 1) t

/-- Formats hints as in the source: a single hint is printed with the
plain prefix, read from slot zero after a length-equals-one test;
otherwise every hint is numbered and the lines are joined by
newlines. -/
def formatHints (hints : List String) : String :=
  match hints with
  | [h] => "Hint: " ++ h
  | hs => String.intercalate ("\n") (numberedHints 0 hs)

/-- Formats the flattened failure list: a fixed header then every
failure stringified and bullet prefixed. -/
def formatFailures {α : Type} (f : α → String) (failures : List α) : String :=
  "Encountered failures were:\n- " ++ String.intercalate ("\n- ") (failures.map f)

/-- Report record produced by the three pre-format builders: a message,
optional details (null in the source when absent) and a hint list. -/
structure Report where
  message : String
  details : Option String
  hints : List String
deriving Repr, DecidableEq

/-- Modelled from the spec: the RunDetails record (its interface lives
in the reporter subsystem, not under src) restricted to the fields the
surfacing code reads. The verbose field is the ordinal of the
VerbosityLevel enumeration, modelled from the spec as None equal zero,
Verbose equal one, VeryVerbose equal two; the source comparisons
greater-or-equal VeryVerbose and strictly-equal Verbose become
comparisons with two and one. The counterexamplePath and error fields
are read only by the failure builder, where the spec states they are
present, so they are kept as plain strings. -/
structure RunDetails (α : Type) where
  failed : Bool
  interrupted : Bool
  counterexample : Option α
  counterexamplePath : String
  error : String
  numRuns : Nat
  numSkips : Nat
  numShrinks : Nat
  seed : Int
  verbose : Nat
  executionSummary : List (ExecutionTree α)
  failures : List α

/-- JS string interpolation of a possibly absent value through the
external stringify formatter, which renders null as the text null;
reached only when the dispatch guarantees presence. -/
def jsStringifyOption {α : Type} (f : α → String) : Option α → String
  | some v => f v
  | none => "null"

/-- Builder for the too-many-skips outcome: fixed message with seed and
counters, two fixed hints, and either the rendered execution summary as
details at VeryVerbose or an extra hint recommending VeryVerbose. -/
def preFormatTooManySkipped {α : Type} (f : α → String) (out : RunDetails α) : Report :=
  let message :=
    "Failed to run property, too many pre-condition failures encountered\n\x7b seed: " ++
      toString out.seed ++ " \x7d\n\nRan " ++ toString out.numRuns ++
      " time(s)\nSkipped " ++ toString out.numSkips ++ " time(s)"
  let hints :=
    ["Try to reduce the number of rejected values by combining map, flatMap and built-in arbitraries",
     "Increase failure tolerance by setting maxSkipsPerRun to an higher value"]
  if 2 ≤ out.verbose then
    { message := message,
      details := some (formatExecutionSummary f out.executionSummary),
      hints := hints }
  else
    { message := message,
      details := none,
      hints := hints ++
        ["Enable verbose mode at level VeryVerbose in order to check all generated values and their associated status"] }

/-- Builder for the counterexample-found outcome: message with run
count, seed, path, stringified counterexample, shrink count and error;
details are the execution summary at VeryVerbose, the flattened failure
list at Verbose, otherwise absent with a hint to enable verbose
mode. -/
def preFormatFailure {α : Type} (f : α → String) (out : RunDetails α) : Report :=
  let message :=
    "Property failed after " ++ toString out.numRuns ++ " tests\n\x7b seed: " ++
      toString out.seed ++ ", path: \"" ++ out.counterexamplePath ++
      "\", endOnFailure: true \x7d\nCounterexample: " ++
      jsStringifyOption f out.counterexample ++ "\nShrunk " ++
      toString out.numShrinks ++ " time(s)\nGot error: " ++ out.error
  if 2 ≤ out.verbose then
    { message := message,
      details := some (formatExecutionSummary f out.executionSummary),
      hints := [] }
  else if out.verbose = 1 then
    { message := message,
      details := some (formatFailures f out.failures),
      hints := [] }
  else
    { message := message,
      details := none,
      hints := ["Enable verbose mode in order to have the list of all failing values encountered during the run"] }

/-- Builder for the interrupted outcome: message with run count and
seed; details are the execution summary at VeryVerbose, otherwise a
hint recommending VeryVerbose. -/
def preFormatEarlyInterrupted {α : Type} (f : α → String) (out : RunDetails α) : Report :=
  let message :=
    "Property interrupted after " ++ toString out.numRuns ++ " tests\n\x7b seed: " ++
      toString out.seed ++ " \x7d"
  if 2 ≤ out.verbose then
    { message := message,
      details := some (formatExecutionSummary f out.executionSummary),
      hints := [] }
  else
    { message := message,
      details := none,
      hints := ["Enable verbose mode at level VeryVerbose in order to check all generated values and their associated status"] }

/-- Branch selection of throwIfFailed: the conditional expression
testing counterexample against null first, then the interrupted
flag. -/
def selectReport {α : Type} (f : α → String) (out : RunDetails α) : Report :=
  match out.counterexample with
  | none =>
    if out.interrupted then preFormatEarlyInterrupted f out
    else preFormatTooManySkipped f out
  | some _ => preFormatFailure f out

/-- Assembly of the error text inside throwIfFailed: the message, then
the details after a blank line when present, then the formatted hints
after a blank line when the hint list is nonempty. -/
def assembleReport (r : Report) : String :=
  let withDetails :=
    match r.details with
    | none => r.message
    | some d => r.message ++ "\n\n" ++ d
  if 0 < r.hints.length then withDetails ++ "\n\n" ++ formatHints r.hints
  else withDetails

/-- Failure surfacing boundary: returns none (no throw) when the run
did not fail, otherwise the text of the single raised error, assembled
from the report of the selected builder. -/
def throwIfFailed {α : Type} (f : α → String) (out : RunDetails α) : Option String :=
  if !out.failed then none
  else some (assembleReport (selectReport f out))

/-- Label of the three report builders, used to state that branch
selection is a function of the counterexample and interrupted fields
alone. -/
inductive BuilderKind where
  | tooManySkipped
  | counterexampleFound
  | earlyInterrupted
deriving DecidableEq, Repr

/-- Kind of the builder the conditional of throwIfFailed selects. -/
def selectKind {α : Type} (out : RunDetails α) : BuilderKind :=
  match out.counterexample with
  | none => if out.interrupted then .earlyInterrupted else .tooManySkipped
  | some _ => .counterexampleFound

/-- Builder associated with each kind. -/
def reportOfKind {α : Type} (f : α → String) (k : BuilderKind) (out : RunDetails α) : Report :=
  match k with
  | .tooManySkipped => preFormatTooManySkipped f out
  | .counterexampleFound => preFormatFailure f out
  | .earlyInterrupted => preFormatEarlyInterrupted f out

/-- JS template interpolation of the optional generic message returned
by the external fc_formatRunDetails declaration: an absent value is
interpolated as the text undefined. -/
def jsTemplateOfOption : Option String → String
  | some s => s
  | none => "undefined"

/-- Message of a JS Error built from the optional generic message: an
absent constructor argument yields an empty message. -/
def jsErrorText : Option String → String
  | some s => s
  | none => ""

/-- Wrapper customAssertA over a completed run: returns none when the
run did not fail, otherwise the text of the raised error. It accepts no
callback: with a counterexample present it appends, after a blank line,
the fixed placeholder text of the quoted string in the source; with no
counterexample the generic message stands alone. The external check
call and the fc_formatRunDetails declaration are parameters. -/
def customAssertA {α : Type} (fmt : RunDetails α → Option String) (out : RunDetails α) :
    Option String :=
  if !out.failed then none
  else
    match out.counterexample with
    | none => some (jsErrorText (fmt out))
    | some _ =>
      some (jsTemplateOfOption (fmt out) ++ "\n\n" ++ "await callMethod(out.counterexample)")

/-- Run method of the object returned by buildCustomAssertB, over a
completed run: with an optional callback, it raises the generic message
alone when the callback is absent or the counterexample is absent, and
otherwise appends the callback result on the counterexample after a
blank line. -/
def customAssertBRun {α : Type} (fmt : RunDetails α → Option String) (out : RunDetails α)
    (callMethod : Option (α → String)) : Option String :=
  if !out.failed then none
  else
    match callMethod, out.counterexample with
    | some cm, some c => some (jsTemplateOfOption (fmt out) ++ "\n\n" ++ cm c)
    | some _, none => some (jsErrorText (fmt out))
    | none, _ => some (jsErrorText (fmt out))

/-- Wrapper withCustomAssert over an awaited run with a mandatory
callback: raises the generic message alone when the counterexample is
absent, otherwise appends the callback result on the counterexample
after a blank line. -/
def withCustomAssert {α : Type} (fmt : RunDetails α → Option String) (out : RunDetails α)
    (callMethod : α → String) : Option String :=
  if !out.failed then none
  else
    match out.counterexample with
    | none => some (jsErrorText (fmt out))
    | some c => some (jsTemplateOfOption (fmt out) ++ "\n\n" ++ callMethod c)

/-- Configuration record of withCustomAssertB: three callbacks over the
unpacked counterexample. -/
structure CustomAssertConfig (α : Type) where
  onRunInterrupted : α → String
  onRunFailed : α → String
  onRunTooManySkip : α → String

/-- Wrapper withCustomAssertB over an awaited run: raises the generic
message alone when the counterexample is absent, otherwise appends the
result of the onRunInterrupted callback, the only callback of the
configuration the body ever reads. -/
def withCustomAssertB {α : Type} (fmt : RunDetails α → Option String)
    (config : CustomAssertConfig α) (out : RunDetails α) : Option String :=
  if !out.failed then none
  else
    match out.counterexample with
    | none => some (jsErrorText (fmt out))
    | some c => some (jsTemplateOfOption (fmt out) ++ "\n\n" ++ config.onRunInterrupted c)

/-- External contract of the generator subsystem: an arbitrary bound to
a mutable random source, modelled as explicit state passing over an
abstract source type. The shrink handle carried by a generated value is
opaque to the core (the spec says the core only consumes it) and is not
modelled. -/
structure Arbitrary (σ α : Type) where
  generate : σ → α × σ

/-- Outcome of one awaited predicate invocation: resolved to true,
false or undefined (none), or threw a value carrying a JS Error flag,
its string form and an optional stack text. -/
inductive PredicateOutcome where
  | ok (value : Option Bool)
  | threw (isJsError : Bool) (text : String) (stack : Option String)

/-- Verdict conversion of AsyncProperty.run: a resolved undefined or
true is a pass (null); a resolved false is a fail with the fixed
description; a thrown value is caught, and when it is an Error with a
truthy stack the description is its string form, a blank line, the
stack label and the stack, otherwise just its string form. -/
def runPredicateOutcome : PredicateOutcome → Option String
  | .ok none => none
  | .ok (some true) => none
  | .ok (some false) => some ("Property failed by returning false")
  | .threw isJsError text stack =>
    match stack with
    | some s =>
      if isJsError && !s.isEmpty then some (text ++ "\n\nStack trace: " ++ s)
      else some text
    | none => some text

/-- The AsyncProperty class: an arbitrary and a predicate. The promise
returned by the predicate is collapsed into a PredicateOutcome. -/
structure AsyncProperty (σ α : Type) where
  arb : Arbitrary σ α
  predicate : α → PredicateOutcome

/-- Generate method: delegates to the arbitrary. -/
def AsyncProperty.generate {σ α : Type} (P : AsyncProperty σ α) (mrng : σ) : α × σ :=
  P.arb.generate mrng

/-- Run method: awaits the predicate and converts its outcome to a
verdict, null meaning pass and a string meaning fail with that
description. -/
def AsyncProperty.run {σ α : Type} (P : AsyncProperty σ α) (v : α) : Option String :=
  runPredicateOutcome (P.predicate v)

/-- Modelled from the spec: the tuple arbitrary (TupleArbitrary is not
under src) composes generators point-wise, each drawing from the random
source advanced by the previous one, in declared order, packaging the
results as an ordered tuple. Arity one: the singleton tuple is the
value itself. -/
def tuple1 {σ α1 : Type} (a1 : Arbitrary σ α1) : Arbitrary σ α1 :=
  ⟨fun s => a1.generate s⟩

/-- Modelled from the spec: point-wise tuple of two generators. -/
def tuple2 {σ α1 α2 : Type} (a1 : Arbitrary σ α1) (a2 : Arbitrary σ α2) :
    Arbitrary σ (α1 × α2) :=
  ⟨fun s =>
    let r1 := a1.generate s
    let r2 := a2.generate r1.2
    ((r1.1, r2.1), r2.2)⟩

/-- Modelled from the spec: point-wise tuple of three generators. -/
def tuple3 {σ α1 α2 α3 : Type} (a1 : Arbitrary σ α1) (a2 : Arbitrary σ α2)
    (a3 : Arbitrary σ α3) : Arbitrary σ (α1 × α2 × α3) :=
  ⟨fun s =>
    let r1 := a1.generate s
    let r2 := a2.generate r1.2
    let r3 := a3.generate r2.2
    ((r1.1, r2.1, r3.1), r3.2)⟩

/-- Modelled from the spec: point-wise tuple of four generators. -/
def tuple4 {σ α1 α2 α3 α4 : Type} (a1 : Arbitrary σ α1) (a2 : Arbitrary σ α2)
    (a3 : Arbitrary σ α3) (a4 : Arbitrary σ α4) : Arbitrary σ (α1 × α2 × α3 × α4) :=
  ⟨fun s =>
    let r1 := a1.generate s
    let r2 := a2.generate r1.2
    let r3 := a3.generate r2.2
    let r4 := a4.generate r3.2
    ((r1.1, r2.1, r3.1, r4.1), r4.2)⟩

/-- Modelled from the spec: point-wise tuple of five generators. -/
def tuple5 {σ α1 α2 α3 α4 α5 : Type} (a1 : Arbitrary σ α1) (a2 : Arbitrary σ α2)
    (a3 : Arbitrary σ α3) (a4 : Arbitrary σ α4) (a5 : Arbitrary σ α5) :
    Arbitrary σ (α1 × α2 × α3 × α4 × α5) :=
  ⟨fun s =>
    let r1 := a1.generate s
    let r2 := a2.generate r1.2
    let r3 := a3.generate r2.2
    let r4 := a4.generate r3.2
    let r5 := a5.generate r4.2
    ((r1.1, r2.1, r3.1, r4.1, r5.1), r5.2)⟩

/-- Modelled from the spec: point-wise tuple of six generators. -/
def tuple6 {σ α1 α2 α3 α4 α5 α6 : Type} (a1 : Arbitrary σ α1) (a2 : Arbitrary σ α2)
    (a3 : Arbitrary σ α3) (a4 : Arbitrary σ α4) (a5 : Arbitrary σ α5)
    (a6 : Arbitrary σ α6) : Arbitrary σ (α1 × α2 × α3 × α4 × α5 × α6) :=
  ⟨fun s =>
    let r1 := a1.generate s
    let r2 := a2.generate r1.2
    let r3 := a3.generate r2.2
    let r4 := a4.generate r3.2
    let r5 := a5.generate r4.2
    let r6 := a6.generate r5.2
    ((r1.1, r2.1, r3.1, r4.1, r5.1, r6.1), r6.2)⟩

/-- Modelled from the spec: point-wise tuple of seven generators. -/
def tuple7 {σ α1 α2 α3 α4 α5 α6 α7 : Type} (a1 : Arbitrary σ α1) (a2 : Arbitrary σ α2)
    (a3 : Arbitrary σ α3) (a4 : Arbitrary σ α4) (a5 : Arbitrary σ α5)
    (a6 : Arbitrary σ α6) (a7 : Arbitrary σ α7) :
    Arbitrary σ (α1 × α2 × α3 × α4 × α5 × α6 × α7) :=
  ⟨fun s =>
    let r1 := a1.generate s
    let r2 := a2.generate r1.2
    let r3 := a3.generate r2.2
    let r4 := a4.generate r3.2
    let r5 := a5.generate r4.2
    let r6 := a6.generate r5.2
    let r7 := a7.generate r6.2
    ((r1.1, r2.1, r3.1, r4.1, r5.1, r6.1, r7.1), r7.2)⟩

/-- Modelled from the spec: point-wise tuple of eight generators. -/
def tuple8 {σ α1 α2 α3 α4 α5 α6 α7 α8 : Type} (a1 : Arbitrary σ α1) (a2 : Arbitrary σ α2)
    (a3 : Arbitrary σ α3) (a4 : Arbitrary σ α4) (a5 : Arbitrary σ α5)
    (a6 : Arbitrary σ α6) (a7 : Arbitrary σ α7) (a8 : Arbitrary σ α8) :
    Arbitrary σ (α1 × α2 × α3 × α4 × α5 × α6 × α7 × α8) :=
  ⟨fun s =>
    let r1 := a1.generate s
    let r2 := a2.generate r1.2
    let r3 := a3.generate r2.2
    let r4 := a4.generate r3.2
    let r5 := a5.generate r4.2
    let r6 := a6.generate r5.2
    let r7 := a7.generate r6.2
    let r8 := a8.generate r7.2
    ((r1.1, r2.1, r3.1, r4.1, r5.1, r6.1, r7.1, r8.1), r8.2)⟩

/-- Modelled from the spec: point-wise tuple of nine generators. -/
def tuple9 {σ α1 α2 α3 α4 α5 α6 α7 α8 α9 : Type} (a1 : Arbitrary σ α1)
    (a2 : Arbitrary σ α2) (a3 : Arbitrary σ α3) (a4 : Arbitrary σ α4)
    (a5 : Arbitrary σ α5) (a6 : Arbitrary σ α6) (a7 : Arbitrary σ α7)
    (a8 : Arbitrary σ α8) (a9 : Arbitrary σ α9) :
    Arbitrary σ (α1 × α2 × α3 × α4 × α5 × α6 × α7 × α8 × α9) :=
  ⟨fun s =>
    let r1 := a1.generate s
    let r2 := a2.generate r1.2
    let r3 := a3.generate r2.2
    let r4 := a4.generate r3.2
    let r5 := a5.generate r4.2
    let r6 := a6.generate r5.2
    let r7 := a7.generate r6.2
    let r8 := a8.generate r7.2
    let r9 := a9.generate r8.2
    ((r1.1, r2.1, r3.1, r4.1, r5.1, r6.1, r7.1, r8.1, r9.1), r9.2)⟩

/-- Branch of asyncProperty taken for one generator and a predicate:
the final fallback of the dispatch, wrapping the predicate to read slot
zero of the singleton tuple. -/
def asyncProperty1 {σ α1 : Type} (a1 : Arbitrary σ α1) (p : α1 → PredicateOutcome) :
    AsyncProperty σ α1 :=
  ⟨tuple1 a1, fun t => p t⟩

/-- Branch of asyncProperty taken for two generators and a predicate:
the predicate is applied to the tuple components positionally. -/
def asyncProperty2 {σ α1 α2 : Type} (a1 : Arbitrary σ α1) (a2 : Arbitrary σ α2)
    (p : α1 → α2 → PredicateOutcome) : AsyncProperty σ (α1 × α2) :=
  ⟨tuple2 a1 a2, fun t => p t.1 t.2⟩

/-- Branch of asyncProperty taken for three generators and a
predicate. -/
def asyncProperty3 {σ α1 α2 α3 : Type} (a1 : Arbitrary σ α1) (a2 : Arbitrary σ α2)
    (a3 : Arbitrary σ α3) (p : α1 → α2 → α3 → PredicateOutcome) :
    AsyncProperty σ (α1 × α2 × α3) :=
  ⟨tuple3 a1 a2 a3, fun t => p t.1 t.2.1 t.2.2⟩

/-- Branch of asyncProperty taken for four generators and a
predicate. -/
def asyncProperty4 {σ α1 α2 α3 α4 : Type} (a1 : Arbitrary σ α1) (a2 : Arbitrary σ α2)
    (a3 : Arbitrary σ α3) (a4 : Arbitrary σ α4)
    (p : α1 → α2 → α3 → α4 → PredicateOutcome) :
    AsyncProperty σ (α1 × α2 × α3 × α4) :=
  ⟨tuple4 a1 a2 a3 a4, fun t => p t.1 t.2.1 t.2.2.1 t.2.2.2⟩

/-- Branch of asyncProperty taken for five generators and a
predicate. -/
def asyncProperty5 {σ α1 α2 α3 α4 α5 : Type} (a1 : Arbitrary σ α1) (a2 : Arbitrary σ α2)
    (a3 : Arbitrary σ α3) (a4 : Arbitrary σ α4) (a5 : Arbitrary σ α5)
    (p : α1 → α2 → α3 → α4 → α5 → PredicateOutcome) :
    AsyncProperty σ (α1 × α2 × α3 × α4 × α5) :=
  ⟨tuple5 a1 a2 a3 a4 a5, fun t => p t.1 t.2.1 t.2.2.1 t.2.2.2.1 t.2.2.2.2⟩

/-- Branch of asyncProperty taken for six generators and a
predicate. -/
def asyncProperty6 {σ α1 α2 α3 α4 α5 α6 : Type} (a1 : Arbitrary σ α1)
    (a2 : Arbitrary σ α2) (a3 : Arbitrary σ α3) (a4 : Arbitrary σ α4)
    (a5 : Arbitrary σ α5) (a6 : Arbitrary σ α6)
    (p : α1 → α2 → α3 → α4 → α5 → α6 → PredicateOutcome) :
    AsyncProperty σ (α1 × α2 × α3 × α4 × α5 × α6) :=
  ⟨tuple6 a1 a2 a3 a4 a5 a6,
   fun t => p t.1 t.2.1 t.2.2.1 t.2.2.2.1 t.2.2.2.2.1 t.2.2.2.2.2⟩

/-- Branch of asyncProperty taken for seven generators and a
predicate. -/
def asyncProperty7 {σ α1 α2 α3 α4 α5 α6 α7 : Type} (a1 : Arbitrary σ α1)
    (a2 : Arbitrary σ α2) (a3 : Arbitrary σ α3) (a4 : Arbitrary σ α4)
    (a5 : Arbitrary σ α5) (a6 : Arbitrary σ α6) (a7 : Arbitrary σ α7)
    (p : α1 → α2 → α3 → α4 → α5 → α6 → α7 → PredicateOutcome) :
    AsyncProperty σ (α1 × α2 × α3 × α4 × α5 × α6 × α7) :=
  ⟨tuple7 a1 a2 a3 a4 a5 a6 a7,
   fun t => p t.1 t.2.1 t.2.2.1 t.2.2.2.1 t.2.2.2.2.1 t.2.2.2.2.2.1 t.2.2.2.2.2.2⟩

/-- Branch of asyncProperty taken for eight generators and a
predicate. -/
def asyncProperty8 {σ α1 α2 α3 α4 α5 α6 α7 α8 : Type} (a1 : Arbitrary σ α1)
    (a2 : Arbitrary σ α2) (a3 : Arbitrary σ α3) (a4 : Arbitrary σ α4)
    (a5 : Arbitrary σ α5) (a6 : Arbitrary σ α6) (a7 : Arbitrary σ α7)
    (a8 : Arbitrary σ α8)
    (p : α1 → α2 → α3 → α4 → α5 → α6 → α7 → α8 → PredicateOutcome) :
    AsyncProperty σ (α1 × α2 × α3 × α4 × α5 × α6 × α7 × α8) :=
  ⟨tuple8 a1 a2 a3 a4 a5 a6 a7 a8,
   fun t => p t.1 t.2.1 t.2.2.1 t.2.2.2.1 t.2.2.2.2.1 t.2.2.2.2.2.1
     t.2.2.2.2.2.2.1 t.2.2.2.2.2.2.2⟩

/-- Branch of asyncProperty taken for nine generators and a
predicate. -/
def asyncProperty9 {σ α1 α2 α3 α4 α5 α6 α7 α8 α9 : Type} (a1 : Arbitrary σ α1)
    (a2 : Arbitrary σ α2) (a3 : Arbitrary σ α3) (a4 : Arbitrary σ α4)
    (a5 : Arbitrary σ α5) (a6 : Arbitrary σ α6) (a7 : Arbitrary σ α7)
    (a8 : Arbitrary σ α8) (a9 : Arbitrary σ α9)
    (p : α1 → α2 → α3 → α4 → α5 → α6 → α7 → α8 → α9 → PredicateOutcome) :
    AsyncProperty σ (α1 × α2 × α3 × α4 × α5 × α6 × α7 × α8 × α9) :=
  ⟨tuple9 a1 a2 a3 a4 a5 a6 a7 a8 a9,
   fun t => p t.1 t.2.1 t.2.2.1 t.2.2.2.1 t.2.2.2.2.1 t.2.2.2.2.2.1
     t.2.2.2.2.2.2.1 t.2.2.2.2.2.2.2.1 t.2.2.2.2.2.2.2.2⟩

/-- Runtime shape of one argument slot of the variadic asyncProperty
call: absent (undefined), an arbitrary object, or a function. -/
inductive ArgVal (A F : Type) where
  | undef
  | arb (a : A)
  | fn (f : F)

/-- JS truthiness of an argument slot: undefined is falsy, objects and
functions are truthy. This is what the if tests of the dispatch
evaluate. -/
def jsTruthy {A F : Type} : ArgVal A F → Bool
  | .undef => false
  | .arb _ => true
  | .fn _ => true

/-- Callability of an argument slot: only a function is callable. -/
def jsCallable {A F : Type} : ArgVal A F → Bool
  | .undef => false
  | .arb _ => false
  | .fn _ => true

/-- Overload dispatch of asyncProperty: the cascade of if tests from
the source, checking the slot at position ten (the arity-nine predicate
position) first and walking down; the first truthy slot is treated as
the predicate and its position is returned; when no optional slot is
truthy the mandatory slot at position two is the predicate. -/
def resolvePredicatePos {A F : Type}
    (a2 a3 a4 a5 a6 a7 a8 a9 pred : ArgVal A F) : Nat :=
  if jsTruthy pred then 10
  else if jsTruthy a9 then 9
  else if jsTruthy a8 then 8
  else if jsTruthy a7 then 7
  else if jsTruthy a6 then 6
  else if jsTruthy a5 then 5
  else if jsTruthy a4 then 4
  else if jsTruthy a3 then 3
  else 2

/-- Stated from the claim: resolution by callability, testing from the
highest arity position downward whether the slot is callable and
treating the first callable slot as the predicate; when no optional
slot is callable the mandatory slot at position two is the
predicate. -/
def specResolvePredicatePos {A F : Type}
    (a2 a3 a4 a5 a6 a7 a8 a9 pred : ArgVal A F) : Nat :=
  if jsCallable pred then 10
  else if jsCallable a9 then 9
  else if jsCallable a8 then 8
  else if jsCallable a7 then 7
  else if jsCallable a6 then 6
  else if jsCallable a5 then 5
  else if jsCallable a4 then 4
  else if jsCallable a3 then 3
  else 2

theorem stackLines_append {α : Type} (f : α → String)
    (xs ys : List (Nat × ExecutionTree α)) :
    stackLines f (xs ++ ys) = stackLines f xs ++ stackLines f ys := by
  induction xs with
  | nil => simp [stackLines]
  | cons p rest ih =>
    obtain ⟨d, t⟩ := p
    simp [stackLines, ih]

theorem stackLines_map_children {α : Type} (f : α → String) (d : Nat)
    (cs : List (ExecutionTree α)) :
    stackLines f (cs.map (fun c => (d, c))) = preorderLinesForest f d cs := by
  induction cs with
  | nil => simp [stackLines, preorderLinesForest]
  | cons c rest ih => simp [stackLines, preorderLinesForest, ih]

theorem summaryLinesGo_eq_stackLines {α : Type} (f : α → String) :
    (stack : List (Nat × ExecutionTree α)) →
    summaryLinesGo f stack = stackLines f stack
  | [] => by simp [summaryLinesGo, stackLines]
  | (d, t) :: rest => by
    cases t with
    | node v s cs =>
      rw [summaryLinesGo,
        summaryLinesGo_eq_stackLines f ((ExecutionTree.node v s cs).children.map
          (fun c => (d + 1, c)) ++ rest)]
      simp [stackLines, preorderLines, ExecutionTree.children,
        stackLines_append, stackLines_map_children]
termination_by stack => stackSize stack
decreasing_by
  simp only [stackSize, stackSize_append, stackSize_map_children]
  simp [ExecutionTree.children, treeSize]

mutual

theorem preorderLines_length {α : Type} (f : α → String) (d : Nat) :
    (t : ExecutionTree α) → (preorderLines f d t).length = treeSize t
  | .node v s cs => by
    simp [preorderLines, treeSize, preorderLinesForest_length f (d + 1) cs]
    omega

theorem preorderLinesForest_length {α : Type} (f : α → String) (d : Nat) :
    (ts : List (ExecutionTree α)) →
    (preorderLinesForest f d ts).length = forestSize ts
  | [] => by simp [preorderLinesForest, forestSize]
  | t :: ts => by
    simp [preorderLinesForest, forestSize, preorderLines_length f d t,
      preorderLinesForest_length f d ts]

end

/-- Concrete stringify used by witnesses: decimal rendering of a
natural number, standing in for the external formatter. -/
def natStr : Nat → String := fun n => Nat.repr n

/-- Concrete failed run with a counterexample, used by witnesses. -/
def outFailureCase : RunDetails Nat :=
  ⟨true, false, some 5, "1:0", "boom", 100, 0, 2, 42, 0, [], [5]⟩

/-- Concrete failed run with no counterexample and no interruption,
used by witnesses. -/
def outTooManyCase : RunDetails Nat :=
  ⟨true, false, none, "", "", 50, 50, 0, 7, 0, [], []⟩

/-- C1: for every RunDetails with failed true, throwIfFailed raises the
assembly of exactly one of the three builders, and the selected builder
is a function of the pair (counterexample present, interrupted) alone:
a present counterexample selects the counterexample builder, otherwise
a set interrupted flag selects the interrupted builder, otherwise the
too-many-skips builder. -/
theorem throwIfFailed_dispatch {α : Type} (f : α → String) (out : RunDetails α)
    (h : out.failed = true) :
    throwIfFailed f out = some (assembleReport (reportOfKind f (selectKind out) out)) ∧
    selectKind out =
      (if out.counterexample.isSome then BuilderKind.counterexampleFound
       else if out.interrupted then BuilderKind.earlyInterrupted
       else BuilderKind.tooManySkipped) := by
  constructor
  · cases hc : out.counterexample with
    | none =>
      cases hi : out.interrupted with
      | false => simp [throwIfFailed, h, selectReport, selectKind, reportOfKind, hc, hi]
      | true => simp [throwIfFailed, h, selectReport, selectKind, reportOfKind, hc, hi]
    | some c => simp [throwIfFailed, h, selectReport, selectKind, reportOfKind, hc]
  · cases hc : out.counterexample with
    | none => simp [selectKind, hc]
    | some c => simp [selectKind, hc]

/-- Witness for C1 at a concrete failed run with a counterexample. -/
theorem throwIfFailed_dispatch_witness :
    throwIfFailed natStr outFailureCase =
      some (assembleReport (reportOfKind natStr (selectKind outFailureCase) outFailureCase)) ∧
    selectKind outFailureCase =
      (if outFailureCase.counterexample.isSome then BuilderKind.counterexampleFound
       else if outFailureCase.interrupted then BuilderKind.earlyInterrupted
       else BuilderKind.tooManySkipped) :=
  throwIfFailed_dispatch natStr outFailureCase rfl

/-- C3: throwIfFailed is a no-op exactly when failed is false; when
failed is true it raises one error whose text is the selected message,
then the details after a blank line when present, then the hints after
a blank line when at least one hint is present, a single hint carrying
the plain prefix and several hints being numbered from one. -/
theorem throwIfFailed_message_assembly {α : Type} (f : α → String) (out : RunDetails α) :
    (out.failed = false → throwIfFailed f out = none) ∧
    (out.failed = true →
      throwIfFailed f out =
        some ((selectReport f out).message ++
          (match (selectReport f out).details with
           | none => ""
           | some d => "\n\n" ++ d) ++
          (match (selectReport f out).hints with
           | [] => ""
           | _ :: _ => "\n\n" ++ formatHints (selectReport f out).hints))) ∧
    (∀ h, formatHints [h] = "Hint: " ++ h) ∧
    (∀ hs, 2 ≤ hs.length →
      formatHints hs = String.intercalate ("\n") (numberedHints 0 hs)) := by
  refine ⟨fun h => by simp [throwIfFailed, h], fun h => ?_, fun h => rfl, fun hs h2 => ?_⟩
  · cases hd : (selectReport f out).details with
    | none =>
      cases hh : (selectReport f out).hints with
      | nil => simp [throwIfFailed, h, assembleReport, hd, hh]
      | cons h1 t => simp [throwIfFailed, h, assembleReport, hd, hh, String.append_assoc]
    | some d =>
      cases hh : (selectReport f out).hints with
      | nil => simp [throwIfFailed, h, assembleReport, hd, hh, String.append_assoc]
      | cons h1 t => simp [throwIfFailed, h, assembleReport, hd, hh, String.append_assoc]
  · match hs, h2 with
    | h1 :: h2' :: t, _ => rfl

/-- Witness for C3 at a concrete failed run with no counterexample. -/
theorem throwIfFailed_message_assembly_witness :
    throwIfFailed natStr outTooManyCase =
      some ((selectReport natStr outTooManyCase).message ++
        (match (selectReport natStr outTooManyCase).details with
         | none => ""
         | some d => "\n\n" ++ d) ++
        (match (selectReport natStr outTooManyCase).hints with
         | [] => ""
         | _ :: _ => "\n\n" ++ formatHints (selectReport natStr outTooManyCase).hints)) :=
  (throwIfFailed_message_assembly natStr outTooManyCase).2.1 rfl

/-- Two-root forest on which the rendering side effect is visible. -/
def exForest : List (ExecutionTree Nat) :=
  [.node 0 .success [], .node 1 .success []]

/-- C4: the code mutates the forest while rendering: every sibling
array is reversed in place by the JS reverse calls, so the forest left
behind by one call of formatExecutionSummary is mirrorForest of its
input, and a second call on that state prints the roots of this
two-root forest in the opposite order: the two consecutive renderings
produce different text, refuting idempotence and purity. -/
theorem formatExecutionSummary_second_render_differs :
    formatExecutionSummary natStr (mirrorForest exForest) ≠
      formatExecutionSummary natStr exForest := by
  have h1 : mirrorForest exForest =
      [ExecutionTree.node 1 ExecutionStatus.success [],
       ExecutionTree.node 0 ExecutionStatus.success []] := by
    simp [exForest, mirrorForest, mirrorTree]
  rw [h1, formatExecutionSummary, formatExecutionSummary,
    summaryLinesGo_eq_stackLines, summaryLinesGo_eq_stackLines]
  simp only [exForest, List.map, stackLines, preorderLines, preorderLinesForest,
    summaryLine, leftPadding, statusIcon, ExecutionTree.status, ExecutionTree.value,
    natStr, List.replicate, String.join, List.append_nil, List.nil_append]
  decide

/-- C5: one rendering of a pristine forest is the header followed by
the pre-order body lines, one line per node (so a forest with k nodes
yields exactly k body lines), parent before children and siblings in
original order, each line being depth minus one copies of the
two-character marker, then one of three pairwise distinct status
glyphs, then a space and the stringified value. -/
theorem formatExecutionSummary_preorder_shape {α : Type} (f : α → String)
    (ts : List (ExecutionTree α)) :
    formatExecutionSummary f ts =
      "Execution summary:\n" ++ String.intercalate ("\n") (preorderLinesForest f 1 ts) ∧
    (preorderLinesForest f 1 ts).length = forestSize ts ∧
    (∀ (d : Nat) (t : ExecutionTree α),
      preorderLines f d t =
        (String.join (List.replicate (d - 1) (". ")) ++ statusIcon t.status ++ " " ++ f t.value)
          :: preorderLinesForest f (d + 1) t.children) ∧
    statusIcon .success ≠ statusIcon .failure ∧
    statusIcon .success ≠ statusIcon .skipped ∧
    statusIcon .failure ≠ statusIcon .skipped := by
  refine ⟨?_, preorderLinesForest_length f 1 ts, ?_, by decide, by decide, by decide⟩
  · rw [formatExecutionSummary, summaryLinesGo_eq_stackLines, stackLines_map_children]
  · intro d t
    cases t with
    | node v s cs =>
      simp [preorderLines, summaryLine, leftPadding, ExecutionTree.status,
        ExecutionTree.value, ExecutionTree.children]

/-- C2: for every arity from one to nine, the property built from n
generators and an n-ary predicate generates exactly the n-tuple of the
n generator values in declared argument order, each generator drawing
from the source advanced by the previous one, and its run on any tuple
is the verdict of the predicate applied positionally to the components,
unchanged. -/
theorem asyncProperty_composes_tuples :
    (∀ (σ α1 : Type) (a1 : Arbitrary σ α1) (p : α1 → PredicateOutcome) (s : σ) (v1 : α1),
      (asyncProperty1 a1 p).generate s = a1.generate s ∧
      (asyncProperty1 a1 p).run v1 = runPredicateOutcome (p v1)) ∧
    (∀ (σ α1 α2 : Type) (a1 : Arbitrary σ α1) (a2 : Arbitrary σ α2)
      (p : α1 → α2 → PredicateOutcome) (s : σ) (v1 : α1) (v2 : α2),
      (asyncProperty2 a1 a2 p).generate s =
        (let r1 := a1.generate s
         let r2 := a2.generate r1.2
         ((r1.1, r2.1), r2.2)) ∧
      (asyncProperty2 a1 a2 p).run (v1, v2) = runPredicateOutcome (p v1 v2)) ∧
    (∀ (σ α1 α2 α3 : Type) (a1 : Arbitrary σ α1) (a2 : Arbitrary σ α2)
      (a3 : Arbitrary σ α3) (p : α1 → α2 → α3 → PredicateOutcome) (s : σ)
      (v1 : α1) (v2 : α2) (v3 : α3),
      (asyncProperty3 a1 a2 a3 p).generate s =
        (let r1 := a1.generate s
         let r2 := a2.generate r1.2
         let r3 := a3.generate r2.2
         ((r1.1, r2.1, r3.1), r3.2)) ∧
      (asyncProperty3 a1 a2 a3 p).run (v1, v2, v3) = runPredicateOutcome (p v1 v2 v3)) ∧
    (∀ (σ α1 α2 α3 α4 : Type) (a1 : Arbitrary σ α1) (a2 : Arbitrary σ α2)
      (a3 : Arbitrary σ α3) (a4 : Arbitrary σ α4)
      (p : α1 → α2 → α3 → α4 → PredicateOutcome) (s : σ)
      (v1 : α1) (v2 : α2) (v3 : α3) (v4 : α4),
      (asyncProperty4 a1 a2 a3 a4 p).generate s =
        (let r1 := a1.generate s
         let r2 := a2.generate r1.2
         let r3 := a3.generate r2.2
         let r4 := a4.generate r3.2
         ((r1.1, r2.1, r3.1, r4.1), r4.2)) ∧
      (asyncProperty4 a1 a2 a3 a4 p).run (v1, v2, v3, v4) =
        runPredicateOutcome (p v1 v2 v3 v4)) ∧
    (∀ (σ α1 α2 α3 α4 α5 : Type) (a1 : Arbitrary σ α1) (a2 : Arbitrary σ α2)
      (a3 : Arbitrary σ α3) (a4 : Arbitrary σ α4) (a5 : Arbitrary σ α5)
      (p : α1 → α2 → α3 → α4 → α5 → PredicateOutcome) (s : σ)
      (v1 : α1) (v2 : α2) (v3 : α3) (v4 : α4) (v5 : α5),
      (asyncProperty5 a1 a2 a3 a4 a5 p).generate s =
        (let r1 := a1.generate s
         let r2 := a2.generate r1.2
         let r3 := a3.generate r2.2
         let r4 := a4.generate r3.2
         let r5 := a5.generate r4.2
         ((r1.1, r2.1, r3.1, r4.1, r5.1), r5.2)) ∧
      (asyncProperty5 a1 a2 a3 a4 a5 p).run (v1, v2, v3, v4, v5) =
        runPredicateOutcome (p v1 v2 v3 v4 v5)) ∧
    (∀ (σ α1 α2 α3 α4 α5 α6 : Type) (a1 : Arbitrary σ α1) (a2 : Arbitrary σ α2)
      (a3 : Arbitrary σ α3) (a4 : Arbitrary σ α4) (a5 : Arbitrary σ α5)
      (a6 : Arbitrary σ α6) (p : α1 → α2 → α3 → α4 → α5 → α6 → PredicateOutcome) (s : σ)
      (v1 : α1) (v2 : α2) (v3 : α3) (v4 : α4) (v5 : α5) (v6 : α6),
      (asyncProperty6 a1 a2 a3 a4 a5 a6 p).generate s =
        (let r1 := a1.generate s
         let r2 := a2.generate r1.2
         let r3 := a3.generate r2.2
         let r4 := a4.generate r3.2
         let r5 := a5.generate r4.2
         let r6 := a6.generate r5.2
         ((r1.1, r2.1, r3.1, r4.1, r5.1, r6.1), r6.2)) ∧
      (asyncProperty6 a1 a2 a3 a4 a5 a6 p).run (v1, v2, v3, v4, v5, v6) =
        runPredicateOutcome (p v1 v2 v3 v4 v5 v6)) ∧
    (∀ (σ α1 α2 α3 α4 α5 α6 α7 : Type) (a1 : Arbitrary σ α1) (a2 : Arbitrary σ α2)
      (a3 : Arbitrary σ α3) (a4 : Arbitrary σ α4) (a5 : Arbitrary σ α5)
      (a6 : Arbitrary σ α6) (a7 : Arbitrary σ α7)
      (p : α1 → α2 → α3 → α4 → α5 → α6 → α7 → PredicateOutcome) (s : σ)
      (v1 : α1) (v2 : α2) (v3 : α3) (v4 : α4) (v5 : α5) (v6 : α6) (v7 : α7),
      (asyncProperty7 a1 a2 a3 a4 a5 a6 a7 p).generate s =
        (let r1 := a1.generate s
         let r2 := a2.generate r1.2
         let r3 := a3.generate r2.2
         let r4 := a4.generate r3.2
         let r5 := a5.generate r4.2
         let r6 := a6.generate r5.2
         let r7 := a7.generate r6.2
         ((r1.1, r2.1, r3.1, r4.1, r5.1, r6.1, r7.1), r7.2)) ∧
      (asyncProperty7 a1 a2 a3 a4 a5 a6 a7 p).run (v1, v2, v3, v4, v5, v6, v7) =
        runPredicateOutcome (p v1 v2 v3 v4 v5 v6 v7)) ∧
    (∀ (σ α1 α2 α3 α4 α5 α6 α7 α8 : Type) (a1 : Arbitrary σ α1) (a2 : Arbitrary σ α2)
      (a3 : Arbitrary σ α3) (a4 : Arbitrary σ α4) (a5 : Arbitrary σ α5)
      (a6 : Arbitrary σ α6) (a7 : Arbitrary σ α7) (a8 : Arbitrary σ α8)
      (p : α1 → α2 → α3 → α4 → α5 → α6 → α7 → α8 → PredicateOutcome) (s : σ)
      (v1 : α1) (v2 : α2) (v3 : α3) (v4 : α4) (v5 : α5) (v6 : α6) (v7 : α7) (v8 : α8),
      (asyncProperty8 a1 a2 a3 a4 a5 a6 a7 a8 p).generate s =
        (let r1 := a1.generate s
         let r2 := a2.generate r1.2
         let r3 := a3.generate r2.2
         let r4 := a4.generate r3.2
         let r5 := a5.generate r4.2
         let r6 := a6.generate r5.2
         let r7 := a7.generate r6.2
         let r8 := a8.generate r7.2
         ((r1.1, r2.1, r3.1, r4.1, r5.1, r6.1, r7.1, r8.1), r8.2)) ∧
      (asyncProperty8 a1 a2 a3 a4 a5 a6 a7 a8 p).run (v1, v2, v3, v4, v5, v6, v7, v8) =
        runPredicateOutcome (p v1 v2 v3 v4 v5 v6 v7 v8)) ∧
    (∀ (σ α1 α2 α3 α4 α5 α6 α7 α8 α9 : Type) (a1 : Arbitrary σ α1) (a2 : Arbitrary σ α2)
      (a3 : Arbitrary σ α3) (a4 : Arbitrary σ α4) (a5 : Arbitrary σ α5)
      (a6 : Arbitrary σ α6) (a7 : Arbitrary σ α7) (a8 : Arbitrary σ α8)
      (a9 : Arbitrary σ α9)
      (p : α1 → α2 → α3 → α4 → α5 → α6 → α7 → α8 → α9 → PredicateOutcome) (s : σ)
      (v1 : α1) (v2 : α2) (v3 : α3) (v4 : α4) (v5 : α5) (v6 : α6) (v7 : α7) (v8 : α8)
      (v9 : α9),
      (asyncProperty9 a1 a2 a3 a4 a5 a6 a7 a8 a9 p).generate s =
        (let r1 := a1.generate s
         let r2 := a2.generate r1.2
         let r3 := a3.generate r2.2
         let r4 := a4.generate r3.2
         let r5 := a5.generate r4.2
         let r6 := a6.generate r5.2
         let r7 := a7.generate r6.2
         let r8 := a8.generate r7.2
         let r9 := a9.generate r8.2
         ((r1.1, r2.1, r3.1, r4.1, r5.1, r6.1, r7.1, r8.1, r9.1), r9.2)) ∧
      (asyncProperty9 a1 a2 a3 a4 a5 a6 a7 a8 a9 p).run
          (v1, v2, v3, v4, v5, v6, v7, v8, v9) =
        runPredicateOutcome (p v1 v2 v3 v4 v5 v6 v7 v8 v9)) :=
  ⟨fun _ _ _ _ _ _ => ⟨rfl, rfl⟩,
   fun _ _ _ _ _ _ _ _ _ => ⟨rfl, rfl⟩,
   fun _ _ _ _ _ _ _ _ _ _ _ _ => ⟨rfl, rfl⟩,
   fun _ _ _ _ _ _ _ _ _ _ _ _ _ _ _ => ⟨rfl, rfl⟩,
   fun _ _ _ _ _ _ _ _ _ _ _ _ _ _ _ _ _ _ => ⟨rfl, rfl⟩,
   fun _ _ _ _ _ _ _ _ _ _ _ _ _ _ _ _ _ _ _ _ _ => ⟨rfl, rfl⟩,
   fun _ _ _ _ _ _ _ _ _ _ _ _ _ _ _ _ _ _ _ _ _ _ _ _ => ⟨rfl, rfl⟩,
   fun _ _ _ _ _ _ _ _ _ _ _ _ _ _ _ _ _ _ _ _ _ _ _ _ _ _ _ => ⟨rfl, rfl⟩,
   fun _ _ _ _ _ _ _ _ _ _ _ _ _ _ _ _ _ _ _ _ _ _ _ _ _ _ _ _ _ _ => ⟨rfl, rfl⟩⟩

/-- C6: on every legitimate call shape (n generators in the leading
slots, the predicate right after them, nothing beyond), the dispatch of
asyncProperty, which tests slots for truthiness from the highest arity
position downward, selects the predicate slot at position n plus one;
the resolution stated from the claim, testing the same slots for
callability from the highest position downward, selects the same slot,
so every argument left of the selected slot is a generator bound
positionally. -/
theorem asyncProperty_overload_resolution :
    (∀ (A F : Type) (f : F),
      resolvePredicatePos (ArgVal.fn f : ArgVal A F)
        .undef .undef .undef .undef .undef .undef .undef .undef = 2 ∧
      specResolvePredicatePos (ArgVal.fn f : ArgVal A F)
        .undef .undef .undef .undef .undef .undef .undef .undef = 2) ∧
    (∀ (A F : Type) (g2 : A) (f : F),
      resolvePredicatePos (.arb g2) (ArgVal.fn f : ArgVal A F)
        .undef .undef .undef .undef .undef .undef .undef = 3 ∧
      specResolvePredicatePos (.arb g2) (ArgVal.fn f : ArgVal A F)
        .undef .undef .undef .undef .undef .undef .undef = 3) ∧
    (∀ (A F : Type) (g2 g3 : A) (f : F),
      resolvePredicatePos (.arb g2) (.arb g3) (ArgVal.fn f : ArgVal A F)
        .undef .undef .undef .undef .undef .undef = 4 ∧
      specResolvePredicatePos (.arb g2) (.arb g3) (ArgVal.fn f : ArgVal A F)
        .undef .undef .undef .undef .undef .undef = 4) ∧
    (∀ (A F : Type) (g2 g3 g4 : A) (f : F),
      resolvePredicatePos (.arb g2) (.arb g3) (.arb g4) (ArgVal.fn f : ArgVal A F)
        .undef .undef .undef .undef .undef = 5 ∧
      specResolvePredicatePos (.arb g2) (.arb g3) (.arb g4) (ArgVal.fn f : ArgVal A F)
        .undef .undef .undef .undef .undef = 5) ∧
    (∀ (A F : Type) (g2 g3 g4 g5 : A) (f : F),
      resolvePredicatePos (.arb g2) (.arb g3) (.arb g4) (.arb g5)
        (ArgVal.fn f : ArgVal A F) .undef .undef .undef .undef = 6 ∧
      specResolvePredicatePos (.arb g2) (.arb g3) (.arb g4) (.arb g5)
        (ArgVal.fn f : ArgVal A F) .undef .undef .undef .undef = 6) ∧
    (∀ (A F : Type) (g2 g3 g4 g5 g6 : A) (f : F),
      resolvePredicatePos (.arb g2) (.arb g3) (.arb g4) (.arb g5) (.arb g6)
        (ArgVal.fn f : ArgVal A F) .undef .undef .undef = 7 ∧
      specResolvePredicatePos (.arb g2) (.arb g3) (.arb g4) (.arb g5) (.arb g6)
        (ArgVal.fn f : ArgVal A F) .undef .undef .undef = 7) ∧
    (∀ (A F : Type) (g2 g3 g4 g5 g6 g7 : A) (f : F),
      resolvePredicatePos (.arb g2) (.arb g3) (.arb g4) (.arb g5) (.arb g6) (.arb g7)
        (ArgVal.fn f : ArgVal A F) .undef .undef = 8 ∧
      specResolvePredicatePos (.arb g2) (.arb g3) (.arb g4) (.arb g5) (.arb g6) (.arb g7)
        (ArgVal.fn f : ArgVal A F) .undef .undef = 8) ∧
    (∀ (A F : Type) (g2 g3 g4 g5 g6 g7 g8 : A) (f : F),
      resolvePredicatePos (.arb g2) (.arb g3) (.arb g4) (.arb g5) (.arb g6) (.arb g7)
        (.arb g8) (ArgVal.fn f : ArgVal A F) .undef = 9 ∧
      specResolvePredicatePos (.arb g2) (.arb g3) (.arb g4) (.arb g5) (.arb g6) (.arb g7)
        (.arb g8) (ArgVal.fn f : ArgVal A F) .undef = 9) ∧
    (∀ (A F : Type) (g2 g3 g4 g5 g6 g7 g8 g9 : A) (f : F),
      resolvePredicatePos (.arb g2) (.arb g3) (.arb g4) (.arb g5) (.arb g6) (.arb g7)
        (.arb g8) (.arb g9) (ArgVal.fn f : ArgVal A F) = 10 ∧
      specResolvePredicatePos (.arb g2) (.arb g3) (.arb g4) (.arb g5) (.arb g6) (.arb g7)
        (.arb g8) (.arb g9) (ArgVal.fn f : ArgVal A F) = 10) :=
  ⟨fun _ _ _ => ⟨rfl, rfl⟩,
   fun _ _ _ _ => ⟨rfl, rfl⟩,
   fun _ _ _ _ _ => ⟨rfl, rfl⟩,
   fun _ _ _ _ _ _ => ⟨rfl, rfl⟩,
   fun _ _ _ _ _ _ _ => ⟨rfl, rfl⟩,
   fun _ _ _ _ _ _ _ _ => ⟨rfl, rfl⟩,
   fun _ _ _ _ _ _ _ _ _ => ⟨rfl, rfl⟩,
   fun _ _ _ _ _ _ _ _ _ _ => ⟨rfl, rfl⟩,
   fun _ _ _ _ _ _ _ _ _ _ _ => ⟨rfl, rfl⟩⟩

/-- C7: run yields the fixed failure description exactly when the
predicate resolves to false, and a pass verdict when it resolves to
true or to undefined. -/
theorem asyncProperty_run_boolean {σ α : Type} (P : AsyncProperty σ α) (v : α) :
    (P.predicate v = .ok (some false) →
      P.run v = some ("Property failed by returning false")) ∧
    (P.predicate v = .ok (some true) → P.run v = none) ∧
    (P.predicate v = .ok none → P.run v = none) := by
  refine ⟨fun h => ?_, fun h => ?_, fun h => ?_⟩ <;>
    simp [AsyncProperty.run, h, runPredicateOutcome]

/-- Property whose predicate echoes its input as a resolved outcome,
used by the run witnesses. -/
def boolEchoProperty : AsyncProperty Unit (Option Bool) :=
  ⟨⟨fun s => (none, s)⟩, fun v => .ok v⟩

/-- Witness for C7 at the three concrete predicate outcomes. -/
theorem asyncProperty_run_boolean_witness :
    boolEchoProperty.run (some false) = some ("Property failed by returning false") ∧
    boolEchoProperty.run (some true) = none ∧
    boolEchoProperty.run none = none :=
  ⟨(asyncProperty_run_boolean boolEchoProperty (some false)).1 rfl,
   (asyncProperty_run_boolean boolEchoProperty (some true)).2.1 rfl,
   (asyncProperty_run_boolean boolEchoProperty none).2.2 rfl⟩

/-- C8: when the predicate throws an Error carrying a nonempty stack,
run fails with a description that is exactly the string form of the
error, a blank line, the literal stack label and the stack text. -/
theorem asyncProperty_run_stack_trace {σ α : Type} (P : AsyncProperty σ α) (v : α)
    (text s : String) (hp : P.predicate v = .threw true text (some s))
    (hs : s.isEmpty = false) :
    P.run v = some (text ++ "\n\nStack trace: " ++ s) := by
  simp [AsyncProperty.run, hp, runPredicateOutcome, hs]

/-- Property whose predicate always throws an Error with a stack, used
by the stack-trace witness. -/
def throwingProperty : AsyncProperty Unit Nat :=
  ⟨⟨fun s => (0, s)⟩, fun _ => .threw true ("Error: boom") (some ("at test"))⟩

/-- Witness for C8 at a concrete thrown error. -/
theorem asyncProperty_run_stack_trace_witness :
    throwingProperty.run 0 = some ("Error: boom" ++ "\n\nStack trace: " ++ "at test") :=
  asyncProperty_run_stack_trace throwingProperty 0 ("Error: boom") ("at test") rfl rfl

/-- Concrete generic-message formatter used by the wrapper witnesses,
standing in for the external fc_formatRunDetails declaration. -/
def fmtG : RunDetails Nat → Option String := fun _ => some ("G")

/-- Concrete explanation callback used by the wrapper witnesses. -/
def cmShow : Nat → String := fun n => Nat.repr n

/-- C9 counterexample: on a failed run with a counterexample present,
customAssertA, which accepts no user callback, does not raise the
generic message alone as the claim requires for a wrapper without a
callback: it appends a blank line and the fixed placeholder text. -/
theorem customAssertA_not_generic_alone :
    customAssertA fmtG outFailureCase ≠ some ("G") := by decide

/-- C9 amended: buildCustomAssertB.run and withCustomAssert behave as
the claim states: on a failed run they invoke the supplied callback on
the counterexample and raise the generic message, a blank line, then
the callback text, and they raise the generic message alone when no
counterexample exists or (for buildCustomAssertB.run) no callback is
supplied; customAssertA, which accepts no callback, raises the generic
message alone only when no counterexample exists, and with a
counterexample present appends a blank line and the fixed placeholder
text instead. -/
theorem customAssert_family_behavior {α : Type} (fmt : RunDetails α → Option String)
    (out : RunDetails α) (cm : α → String) (ocb : Option (α → String)) (c : α) :
    (out.failed = true → out.counterexample = none →
      customAssertA fmt out = some (jsErrorText (fmt out))) ∧
    (out.failed = true → out.counterexample = some c →
      customAssertA fmt out =
        some (jsTemplateOfOption (fmt out) ++ "\n\n" ++ "await callMethod(out.counterexample)")) ∧
    (out.failed = true → out.counterexample = some c →
      customAssertBRun fmt out (some cm) =
        some (jsTemplateOfOption (fmt out) ++ "\n\n" ++ cm c)) ∧
    (out.failed = true → customAssertBRun fmt out none = some (jsErrorText (fmt out))) ∧
    (out.failed = true → out.counterexample = none →
      customAssertBRun fmt out ocb = some (jsErrorText (fmt out))) ∧
    (out.failed = true → out.counterexample = some c →
      withCustomAssert fmt out cm =
        some (jsTemplateOfOption (fmt out) ++ "\n\n" ++ cm c)) ∧
    (out.failed = true → out.counterexample = none →
      withCustomAssert fmt out cm = some (jsErrorText (fmt out))) := by
  refine ⟨fun h hc => ?_, fun h hc => ?_, fun h hc => ?_, fun h => ?_, fun h hc => ?_,
    fun h hc => ?_, fun h hc => ?_⟩
  · simp [customAssertA, h, hc]
  · simp [customAssertA, h, hc]
  · simp [customAssertBRun, h, hc]
  · simp [customAssertBRun, h]
  · cases ocb with
    | none => simp [customAssertBRun, h, hc]
    | some cb => simp [customAssertBRun, h, hc]
  · simp [withCustomAssert, h, hc]
  · simp [withCustomAssert, h, hc]

/-- Witness for the amended C9 at a concrete failed run with a
counterexample and a supplied callback. -/
theorem customAssert_family_behavior_witness :
    customAssertBRun fmtG outFailureCase (some cmShow) =
      some (jsTemplateOfOption (fmtG outFailureCase) ++ "\n\n" ++ cmShow 5) :=
  (customAssert_family_behavior fmtG outFailureCase cmShow none 5).2.2.1 rfl rfl

/-- Configuration with three distinct callbacks, used by the C10
witness. -/
def cfgMain : CustomAssertConfig Nat :=
  ⟨fun n => "int " ++ Nat.repr n, fun _ => "failed", fun _ => "skip"⟩

/-- Configuration agreeing with cfgMain only on onRunInterrupted, used
by the C10 witness. -/
def cfgAlt : CustomAssertConfig Nat :=
  ⟨fun n => "int " ++ Nat.repr n, fun _ => "other failed", fun _ => "other skip"⟩

/-- C10: on a failed run with a counterexample present,
withCustomAssertB appends the result of onRunInterrupted applied to the
unpacked counterexample to the generic message, and its result depends
on the configuration only through onRunInterrupted: the onRunFailed and
onRunTooManySkip callbacks are never invoked, whatever the flags of the
run record say. -/
theorem withCustomAssertB_only_interrupted_callback {α : Type}
    (fmt : RunDetails α → Option String) (config config2 : CustomAssertConfig α)
    (out : RunDetails α) (c : α) :
    (out.failed = true → out.counterexample = some c →
      withCustomAssertB fmt config out =
        some (jsTemplateOfOption (fmt out) ++ "\n\n" ++ config.onRunInterrupted c)) ∧
    (config.onRunInterrupted = config2.onRunInterrupted →
      withCustomAssertB fmt config out = withCustomAssertB fmt config2 out) := by
  constructor
  · intro h hc
    simp [withCustomAssertB, h, hc]
  · intro he
    unfold withCustomAssertB
    rw [he]

/-- Witness for C10 at a concrete failed run, with two configurations
differing everywhere except onRunInterrupted. -/
theorem withCustomAssertB_only_interrupted_callback_witness :
    withCustomAssertB fmtG cfgMain outFailureCase =
      some (jsTemplateOfOption (fmtG outFailureCase) ++ "\n\n" ++ cfgMain.onRunInterrupted 5) ∧
    withCustomAssertB fmtG cfgMain outFailureCase =
      withCustomAssertB fmtG cfgAlt outFailureCase :=
  ⟨(withCustomAssertB_only_interrupted_callback fmtG cfgMain cfgAlt outFailureCase 5).1 rfl rfl,
   (withCustomAssertB_only_interrupted_callback fmtG cfgMain cfgAlt outFailureCase 5).2 rfl⟩

end FastCheck
